import Mathlib

/-
  Verification development for the PSA PAKE driver layer declared in
  library/psa_crypto_pake.h.  The repository ships only the header
  (declarations and their documented return values); the engine behaviour
  is therefore modelled from the design specification: a two-round,
  dual-generator J-PAKE-style protocol driven through a strict step
  sequencer, with zeroization on abort and on validation failure.
  The external group provider is instantiated with a small concrete
  cyclic group (written additively inside ZMod 11, with group elements
  represented by their discrete logarithms with respect to the fixed
  generator), the hash and challenge providers with concrete
  deterministic functions, and the random provider with an injected
  stream of scalars bound at setup.
-/

/-- Modelled from the spec: scalars of the group provider configured for the
single supported primitive.  The missing implementation delegates scalar
arithmetic to the external group provider; here it is instantiated with the
integers modulo a small concrete group order. -/
abbrev PakeScalar : Type := ZMod 11

/-- Modelled from the spec: the PAKE algorithm identifiers that can appear in
a cipher suite.  Only jpake is implemented by the missing driver code. -/
inductive PakeAlg
  | jpake
  | spake2p
deriving DecidableEq

/-- Modelled from the spec: the primitive (group) identifiers that can appear
in a cipher suite. -/
inductive PakePrimitive
  | secp256r1
  | secp384r1
deriving DecidableEq

/-- Modelled from the spec: the hash identifiers that can appear in a cipher
suite. -/
inductive PakeHash
  | sha256
  | sha512
deriving DecidableEq

/-- Modelled from the spec: a cipher suite is the (algorithm, primitive, hash)
triple configuring one PAKE operation instance. -/
structure PakeCipherSuite where
  alg : PakeAlg := .jpake
  primitive : PakePrimitive := .secp256r1
  hash : PakeHash := .sha256
deriving DecidableEq

/-- Modelled from the spec: the static compatibility table of the Cipher Suite
Resolver, one row per defined (algorithm, primitive) pair together with the
hashes compatible with that pair. -/
def pakeTable : List (PakeAlg × PakePrimitive × List PakeHash) :=
  [(.jpake, .secp256r1, [.sha256])]

/-- Modelled from the spec: the pure table lookup of the Cipher Suite
Resolver, true exactly when the (algorithm, primitive) pair is defined and
the requested hash is compatible with that pair. -/
def suiteSupported (cs : PakeCipherSuite) : Bool :=
  pakeTable.any fun row =>
    decide (row.1 = cs.alg) && decide (row.2.1 = cs.primitive) &&
      row.2.2.contains cs.hash

/-- Modelled from the spec: the unique supported cipher suite of the table. -/
def jpakeSuite : PakeCipherSuite :=
  { alg := .jpake, primitive := .secp256r1, hash := .sha256 }

/-- Modelled from the spec: the two symmetric roles of a PAKE operation. -/
inductive PakeRole
  | client
  | server
deriving DecidableEq

/-- Modelled from the spec: the kind of one exchanged protocol unit. -/
inductive PakeStepKind
  | KEY_SHARE
  | ZK_PUBLIC
  | ZK_PROOF
  | CONFIRM
deriving DecidableEq

/-- Modelled from the spec: a step is a tagged value of kind, round number and
sub-index identifying one exchanged unit. -/
structure PakeStep where
  kind : PakeStepKind := .KEY_SHARE
  round : Nat := 1
  sub : Nat := 1
deriving DecidableEq

/-- Modelled from the spec: the direction of a step relative to one
operation, either produced by output or consumed by input. -/
inductive PakeDir
  | out
  | inp
deriving DecidableEq

/-- Modelled from the spec: fixed group-element encoding length of each
primitive, in bytes. -/
def elemLen : PakePrimitive → Nat
  | .secp256r1 => 65
  | .secp384r1 => 97

/-- Modelled from the spec: fixed scalar encoding length of each primitive,
in bytes. -/
def scalarLen : PakePrimitive → Nat
  | .secp256r1 => 32
  | .secp384r1 => 48

/-- Modelled from the spec: output length of each hash, in bytes. -/
def hashLen : PakeHash → Nat
  | .sha256 => 32
  | .sha512 => 64

/-- Modelled from the spec: the pure sizing function of the buffer interface,
giving the minimum required output buffer size for an
(algorithm, primitive, step) triple. -/
def required_output_size (_alg : PakeAlg) (prim : PakePrimitive)
    (step : PakeStep) : Nat :=
  match step.kind with
  | .KEY_SHARE => elemLen prim
  | .ZK_PUBLIC => elemLen prim
  | .ZK_PROOF => scalarLen prim
  | .CONFIRM => 32

/-- Modelled from the spec: big-endian base-256 decoding of a byte string,
used when deserializing a fixed-length wire encoding. -/
def decodeBE (bs : List Nat) : Nat :=
  bs.foldl (fun a b => a * 256 + b) 0

/-- Modelled from the spec: fixed-length big-endian serialization of a group
element for the wire format of KEY_SHARE and ZK_PUBLIC steps. -/
def serElem (prim : PakePrimitive) (x : PakeScalar) : List Nat :=
  List.replicate (elemLen prim - 1) 0 ++ [x.val]

/-- Modelled from the spec: fixed-length big-endian serialization of a scalar
for the wire format of ZK_PROOF steps. -/
def serScalar (prim : PakePrimitive) (x : PakeScalar) : List Nat :=
  List.replicate (scalarLen prim - 1) 0 ++ [x.val]

/-- Modelled from the spec: deserialization of a group element per the fixed
wire layout; malformed or out-of-group-range fields are rejected. -/
def deserElem (prim : PakePrimitive) (bs : List Nat) : Option PakeScalar :=
  if bs.length = elemLen prim then
    if bs.all (fun b => b < 256) then
      if decodeBE bs < 11 then some ((decodeBE bs : Nat) : PakeScalar)
      else none
    else none
  else none

/-- Modelled from the spec: deserialization of a scalar per the fixed wire
layout; malformed or out-of-range fields are rejected. -/
def deserScalar (prim : PakePrimitive) (bs : List Nat) : Option PakeScalar :=
  if bs.length = scalarLen prim then
    if bs.all (fun b => b < 256) then
      if decodeBE bs < 11 then some ((decodeBE bs : Nat) : PakeScalar)
      else none
    else none
  else none

/-- Modelled from the spec: the deterministic challenge derivation of the
zero-knowledge proofs, instantiating the external hash provider with a
concrete function of the commitment pair. -/
def zkChallenge (X V : PakeScalar) : PakeScalar :=
  X * X + 7 * V + 3

/-- Modelled from the spec: the key derivation function of the Finalizer,
instantiating the external hash provider; it combines the shared group value
with the accumulated transcript into hashLen raw key bytes. -/
def pakeKdf (h : PakeHash) (k : PakeScalar) (transcript : List Nat) :
    List Nat :=
  List.replicate (hashLen h - 1) 0 ++
    [(k.val + transcript.foldl (fun a b => a + b) 0) % 256]

/-- Modelled from the spec: writing a payload into the front of a caller
buffer, leaving the remaining bytes of the buffer untouched. -/
def writeBuf (buffer payload : List Nat) : List Nat :=
  payload ++ buffer.drop payload.length

/-- Modelled from the spec: the per-unit expansion of one exchanged unit into
its three sequenced steps. -/
def unitSteps (d : PakeDir) (r i : Nat) : List (PakeDir × PakeStep) :=
  [(d, { kind := .KEY_SHARE, round := r, sub := i }),
   (d, { kind := .ZK_PUBLIC, round := r, sub := i }),
   (d, { kind := .ZK_PROOF, round := r, sub := i })]

/-- Modelled from the spec: the per-role expected-step cursor contents of the
Step Sequencer, fixed by the two-round dual-generator protocol shape.  The
first role sends both round-one units, receives the peer units, then sends
and receives the single round-two unit; the second role mirrors this. -/
def roleSeq : PakeRole → List (PakeDir × PakeStep)
  | .client =>
      unitSteps .out 1 1 ++ unitSteps .out 1 2 ++
      unitSteps .inp 1 1 ++ unitSteps .inp 1 2 ++
      unitSteps .out 2 1 ++ unitSteps .inp 2 1
  | .server =>
      unitSteps .inp 1 1 ++ unitSteps .inp 1 2 ++
      unitSteps .out 1 1 ++ unitSteps .out 1 2 ++
      unitSteps .inp 2 1 ++ unitSteps .out 2 1

/-- Modelled from the spec: the explicit protocol state tag of an operation.
An active state carries the remaining expected-step cursor; an empty cursor
means every round has been validated and only finalization remains. -/
inductive PakeOpState
  | inactive
  | active (cursor : List (PakeDir × PakeStep))
  | finished
  | aborted
deriving DecidableEq

/-- Modelled from the spec: the secret material owned exclusively by one
operation: the bound password and the ephemeral secret scalars and pending
proof nonce of the Round Engine.  Erased fields are zero. -/
structure PakeSecrets where
  pw : PakeScalar := 0
  x1 : PakeScalar := 0
  x2 : PakeScalar := 0
  v : PakeScalar := 0
  base2 : PakeScalar := 0
deriving DecidableEq

/-- Modelled from the spec: the peer data accepted so far by one operation:
the two round-one key shares, the round-two key share, and the pending
zero-knowledge commitment, public value and base of the unit currently being
verified. -/
structure PakePeerData where
  X1 : PakeScalar := 0
  X2 : PakeScalar := 0
  B2 : PakeScalar := 0
  Xp : PakeScalar := 0
  Vp : PakeScalar := 0
  Bp : PakeScalar := 0
deriving DecidableEq

/-- Modelled from the spec: the operation context aggregating the cipher
suite, role, explicit state tag, secret material, injected randomness stream,
accepted peer data and running transcript. -/
structure PakeOperation where
  state : PakeOpState := .inactive
  suite : PakeCipherSuite := {}
  role : PakeRole := .client
  secrets : PakeSecrets := {}
  rng : List PakeScalar := []
  peer : PakePeerData := {}
  transcript : List Nat := []
deriving DecidableEq

/-- Modelled from the spec: the inputs bound at setup: role, password, cipher
suite, plus the injected random provider stream. -/
structure PakeInputs where
  role : PakeRole := .client
  password : PakeScalar := 0
  suite : PakeCipherSuite := {}
  rng : List PakeScalar := []
deriving DecidableEq

/-- Modelled from the spec: the status codes returned by the driver entry
points, named after the PSA error constants of the header. -/
inductive PakeStatus
  | SUCCESS
  | NOT_SUPPORTED
  | BAD_STATE
  | BUFFER_TOO_SMALL
  | INVALID_SIGNATURE
  | INVALID_ARGUMENT
  | INSUFFICIENT_ENTROPY
  | INSUFFICIENT_MEMORY
  | CORRUPTION_DETECTED
  | DATA_CORRUPT
  | DATA_INVALID
deriving DecidableEq

/-- Modelled from the spec: the terminal aborted operation: state set to the
terminal ABORTED marker, password and all ephemeral secret buffers erased,
ephemeral storage released. -/
def abortedOperation : PakeOperation :=
  { state := .aborted }

/-- Modelled from the spec: the secret-erasure predicate: no password, no
ephemeral secret scalars and no unread randomness remain in the operation
storage. -/
def secretsErased (op : PakeOperation) : Prop :=
  op.secrets = {} ∧ op.rng = []

/-- Modelled from the spec: the expected next step of the Step Sequencer for
an operation, when one exists. -/
def expectedNext (op : PakeOperation) : Option (PakeDir × PakeStep) :=
  match op.state with
  | .active (e :: _) => some e
  | _ => none

/-- Modelled from the spec: the missing mbedtls_psa_pake_setup body.  It
requires an initialized but not yet set up operation, validates the cipher
suite through the static table, binds suite, role, password and randomness,
resets the cursor to the first expected step of the role and transitions to
SETUP_DONE.  A failed validation has no side effect on the operation. -/
def mbedtls_psa_pake_setup (op : PakeOperation) (inputs : PakeInputs) :
    PakeStatus × PakeOperation :=
  match op.state with
  | .inactive =>
      if suiteSupported inputs.suite then
        (.SUCCESS,
         { state := .active (roleSeq inputs.role),
           suite := inputs.suite,
           role := inputs.role,
           secrets := { pw := inputs.password },
           rng := inputs.rng,
           peer := {},
           transcript := [] })
      else (.NOT_SUPPORTED, op)
  | _ => (.BAD_STATE, op)

/-- Modelled from the spec: the missing mbedtls_psa_pake_output body.  The
Sequencer check comes first; a mismatching step is a sequencing failure and
does not execute the Round Engine.  The minimum required size is checked
before anything is written, so an undersized buffer is rejected with no
partial write.  Round-one key shares and all proof nonces consume the
injected randomness stream; an exhausted stream surfaces as an entropy
failure.  Every produced payload is folded into the running transcript. -/
def mbedtls_psa_pake_output (op : PakeOperation) (step : PakeStep)
    (buffer : List Nat) : PakeStatus × PakeOperation × List Nat × Nat :=
  match op.state with
  | .active (e :: rest) =>
      if e = (PakeDir.out, step) then
        if buffer.length < required_output_size op.suite.alg
            op.suite.primitive step then
          (.BUFFER_TOO_SMALL, op, buffer, 0)
        else
          match step.kind with
          | .KEY_SHARE =>
              if step.round = 1 then
                match op.rng with
                | [] => (.INSUFFICIENT_ENTROPY, op, buffer, 0)
                | x :: rng1 =>
                    let payload := serElem op.suite.primitive x
                    let secrets1 :=
                      if step.sub = 1 then { op.secrets with x1 := x }
                      else { op.secrets with x2 := x }
                    (.SUCCESS,
                     { op with state := .active rest, rng := rng1,
                               secrets := secrets1,
                               transcript := op.transcript ++ payload },
                     writeBuf buffer payload, elemLen op.suite.primitive)
              else
                let base := op.secrets.x1 + op.peer.X1 + op.peer.X2
                let elem := base * (op.secrets.x2 * op.secrets.pw)
                let payload := serElem op.suite.primitive elem
                (.SUCCESS,
                 { op with state := .active rest,
                           secrets := { op.secrets with base2 := base },
                           transcript := op.transcript ++ payload },
                 writeBuf buffer payload, elemLen op.suite.primitive)
          | .ZK_PUBLIC =>
              match op.rng with
              | [] => (.INSUFFICIENT_ENTROPY, op, buffer, 0)
              | v :: rng1 =>
                  let base := if step.round = 1 then 1 else op.secrets.base2
                  let payload := serElem op.suite.primitive (base * v)
                  (.SUCCESS,
                   { op with state := .active rest, rng := rng1,
                             secrets := { op.secrets with v := v },
                             transcript := op.transcript ++ payload },
                   writeBuf buffer payload, elemLen op.suite.primitive)
          | .ZK_PROOF =>
              let base := if step.round = 1 then 1 else op.secrets.base2
              let x :=
                if step.round = 1 then
                  (if step.sub = 1 then op.secrets.x1 else op.secrets.x2)
                else op.secrets.x2 * op.secrets.pw
              let h := zkChallenge (base * x) (base * op.secrets.v)
              let r := op.secrets.v - x * h
              let payload := serScalar op.suite.primitive r
              (.SUCCESS,
               { op with state := .active rest,
                         secrets := { op.secrets with v := 0 },
                         transcript := op.transcript ++ payload },
               writeBuf buffer payload, scalarLen op.suite.primitive)
          | .CONFIRM => (.NOT_SUPPORTED, op, buffer, 0)
      else (.BAD_STATE, op, buffer, 0)
  | _ => (.BAD_STATE, op, buffer, 0)

/-- Modelled from the spec: the missing mbedtls_psa_pake_input body.  The
Sequencer check comes first; a mismatching step is a sequencing failure and
does not execute the Round Engine.  Payloads are deserialized per the fixed
wire layout, with malformed fields rejected as invalid arguments.  A
ZK_PROOF step verifies the received proof against the previously accepted
commitment; a failing proof is an invalid-signature failure that immediately
moves the operation to the terminal ABORTED state with all secrets erased.
Every accepted payload is folded into the running transcript. -/
def mbedtls_psa_pake_input (op : PakeOperation) (step : PakeStep)
    (bytes : List Nat) : PakeStatus × PakeOperation :=
  match op.state with
  | .active (e :: rest) =>
      if e = (PakeDir.inp, step) then
        match step.kind with
        | .KEY_SHARE =>
            match deserElem op.suite.primitive bytes with
            | none => (.INVALID_ARGUMENT, op)
            | some elem =>
                let peer1 :=
                  if step.round = 1 then
                    (if step.sub = 1 then
                       { op.peer with X1 := elem, Xp := elem }
                     else { op.peer with X2 := elem, Xp := elem })
                  else { op.peer with B2 := elem, Xp := elem }
                (.SUCCESS,
                 { op with state := .active rest, peer := peer1,
                           transcript := op.transcript ++ bytes })
        | .ZK_PUBLIC =>
            match deserElem op.suite.primitive bytes with
            | none => (.INVALID_ARGUMENT, op)
            | some elem =>
                let b :=
                  if step.round = 1 then 1
                  else op.peer.X1 + op.secrets.x1 + op.secrets.x2
                (.SUCCESS,
                 { op with state := .active rest,
                           peer := { op.peer with Vp := elem, Bp := b },
                           transcript := op.transcript ++ bytes })
        | .ZK_PROOF =>
            match deserScalar op.suite.primitive bytes with
            | none => (.INVALID_ARGUMENT, op)
            | some r =>
                let h := zkChallenge op.peer.Xp op.peer.Vp
                if r * op.peer.Bp + h * op.peer.Xp = op.peer.Vp then
                  (.SUCCESS,
                   { op with state := .active rest,
                             transcript := op.transcript ++ bytes })
                else (.INVALID_SIGNATURE, abortedOperation)
        | .CONFIRM => (.NOT_SUPPORTED, op)
      else (.BAD_STATE, op)
  | _ => (.BAD_STATE, op)

/-- Modelled from the spec: the missing mbedtls_psa_pake_get_implicit_key
body.  Legal only once every round has been validated, it combines the
validated contributions Diffie-Hellman-style, derives the raw key bytes
through the configured hash, rejects an undersized buffer before writing,
and on success copies the key out, erases all ephemeral secret state and
transitions to FINISHED. -/
def mbedtls_psa_pake_get_implicit_key (op : PakeOperation)
    (buffer : List Nat) : PakeStatus × PakeOperation × List Nat × Nat :=
  match op.state with
  | .active [] =>
      if buffer.length < hashLen op.suite.hash then
        (.BUFFER_TOO_SMALL, op, buffer, 0)
      else
        let shared :=
          op.secrets.x2 *
            (op.peer.B2 - op.secrets.x2 * op.secrets.pw * op.peer.X2)
        let key := pakeKdf op.suite.hash shared op.transcript
        (.SUCCESS,
         { state := .finished, suite := op.suite, role := op.role,
           secrets := {}, rng := [], peer := op.peer,
           transcript := op.transcript },
         writeBuf buffer key, hashLen op.suite.hash)
  | _ => (.BAD_STATE, op, buffer, 0)

/-- Modelled from the spec: the missing mbedtls_psa_pake_abort body.
Callable at any time, including repeatedly; it erases the password and all
ephemeral secret buffers, releases ephemeral storage and sets the state to
the terminal ABORTED marker. -/
def mbedtls_psa_pake_abort (_op : PakeOperation) :
    PakeStatus × PakeOperation :=
  (.SUCCESS, abortedOperation)

/-- Modelled from the spec: one lockstep exchange: the sender produces the
step into a fresh buffer of exactly the required size and the matching input
of the receiver consumes the produced bytes; defined only when both calls
succeed. -/
def exchange (sender receiver : PakeOperation) (step : PakeStep) :
    Option (PakeOperation × PakeOperation) :=
  let bsz := required_output_size sender.suite.alg sender.suite.primitive step
  match mbedtls_psa_pake_output sender step (List.replicate bsz 0) with
  | (.SUCCESS, sender1, buf, len) =>
      match mbedtls_psa_pake_input receiver step (buf.take len) with
      | (.SUCCESS, receiver1) => some (sender1, receiver1)
      | _ => none
  | _ => none

/-- Modelled from the spec: one full exchanged unit driven in lockstep: the
key share, the zero-knowledge public value and the zero-knowledge proof of
round r, sub-index i, all sent by the first operation and consumed by the
second. -/
def exchUnit (a b : PakeOperation) (r i : Nat) :
    Option (PakeOperation × PakeOperation) := do
  let (a1, b1) ← exchange a b { kind := .KEY_SHARE, round := r, sub := i }
  let (a2, b2) ← exchange a1 b1 { kind := .ZK_PUBLIC, round := r, sub := i }
  exchange a2 b2 { kind := .ZK_PROOF, round := r, sub := i }

/-- Modelled from the spec: the complete lockstep run of two operations in
opposite roles over the given cipher suite: both set up with the same
password and their own randomness, drive every step of every round through
matched output and input calls, and finalize; the result is the pair of key
byte strings copied out by the two get_implicit_key calls, defined only when
every call succeeds. -/
def runLockstep (cs : PakeCipherSuite) (s a1 a2 n1 n2 n3 b1 b2 m1 m2 m3 :
    PakeScalar) : Option (List Nat × List Nat) :=
  match mbedtls_psa_pake_setup {}
      { role := .client, password := s, suite := cs,
        rng := [a1, n1, a2, n2, n3] } with
  | (.SUCCESS, c0) =>
      match mbedtls_psa_pake_setup {}
          { role := .server, password := s, suite := cs,
            rng := [b1, m1, b2, m2, m3] } with
      | (.SUCCESS, s0) =>
          (do
            let (c1, s1) ← exchUnit c0 s0 1 1
            let (c2, s2) ← exchUnit c1 s1 1 2
            let (s3, c3) ← exchUnit s2 c2 1 1
            let (s4, c4) ← exchUnit s3 c3 1 2
            let (c5, s5) ← exchUnit c4 s4 2 1
            let (s6, c6) ← exchUnit s5 c5 2 1
            match mbedtls_psa_pake_get_implicit_key c6
                (List.replicate (hashLen cs.hash) 0) with
            | (.SUCCESS, _, cbuf, clen) =>
                match mbedtls_psa_pake_get_implicit_key s6
                    (List.replicate (hashLen cs.hash) 0) with
                | (.SUCCESS, _, sbuf, slen) =>
                    some (cbuf.take clen, sbuf.take slen)
                | _ => none
            | _ => none)
      | _ => none
  | _ => none

/-- Return values documented for mbedtls_psa_pake_get_implicit_key at lines
145 to 153 of library/psa_crypto_pake.h, in order of appearance. -/
def getImplicitKeyDocumentedStatuses : List PakeStatus :=
  [.SUCCESS, .NOT_SUPPORTED, .INSUFFICIENT_MEMORY, .CORRUPTION_DETECTED,
   .DATA_CORRUPT, .DATA_INVALID]

/-- Result set of get_implicit_key as claimed by section 4.4 of the spec:
a length on success or one of four failures. -/
def specGetImplicitKeyStatuses : List PakeStatus :=
  [.SUCCESS, .NOT_SUPPORTED, .BUFFER_TOO_SMALL, .INSUFFICIENT_MEMORY,
   .CORRUPTION_DETECTED]

/-- Modelled from the spec: the capacity of the internal accumulation buffer
of the missing operation context, sized for two full round payload sets. -/
def MBEDTLS_PSA_JPAKE_BUFFER_SIZE : Nat := 336

/-- Modelled from the spec: the exclusive upper bound of the size_t machine
integers used by the missing implementation for length arithmetic. -/
def SIZE_T_MOD : Nat := 2 ^ 64

/-- Modelled from the spec: the PSA input-size macro bounding input_length,
per the note at lines 99 to 103 of library/psa_crypto_pake.h equal to the
corresponding per-step wire size. -/
def PSA_PAKE_INPUT_SIZE (alg : PakeAlg) (prim : PakePrimitive)
    (step : PakeStep) : Nat :=
  required_output_size alg prim step

/-- Modelled from the spec: the internal capacity comparison of the missing
mbedtls_psa_pake_input body, performed in size_t arithmetic, deciding
whether input_length more bytes still fit into the accumulation buffer. -/
def jpakeBufferCheck (buffer_length input_length : Nat) : Bool :=
  decide ((buffer_length + input_length) % SIZE_T_MOD ≤
    MBEDTLS_PSA_JPAKE_BUFFER_SIZE)

/-- Folding the big-endian decoder over leading zero padding keeps the
accumulator at zero. -/
lemma foldlBE_replicate_zero (n : Nat) :
    List.foldl (fun a b => a * 256 + b) 0 (List.replicate n 0) = 0 := by
  induction n with
  | zero => rfl
  | succ k ih =>
      rw [List.replicate_succ, List.foldl_cons]
      simpa using ih

/-- Decoding a zero-padded single-byte big-endian encoding returns the
byte. -/
lemma decodeBE_pad (n v : Nat) :
    decodeBE (List.replicate n 0 ++ [v]) = v := by
  simp only [decodeBE, List.foldl_append, foldlBE_replicate_zero,
    List.foldl_cons, List.foldl_nil]
  omega

/-- Deserializing a serialized group element of the supported primitive
recovers the element. -/
lemma deserElem_serElem (x : PakeScalar) :
    deserElem .secp256r1 (serElem .secp256r1 x) = some x := by
  have hv : x.val < 11 := ZMod.val_lt x
  have hlen : (List.replicate 64 0 ++ [x.val]).length = 65 := by
    simp only [List.length_append, List.length_replicate,
      List.length_singleton]
  have h2 : (List.replicate 64 0).all (fun b => decide (b < 256)) = true := by
    decide
  have h3 : ([x.val]).all (fun b => decide (b < 256)) = true := by
    simp only [List.all_cons, List.all_nil, Bool.and_true]
    exact decide_eq_true (by omega)
  have hall : (List.replicate 64 0 ++ [x.val]).all
      (fun b => decide (b < 256)) = true := by
    rw [List.all_append, h2, h3]
    rfl
  have hd : decodeBE (List.replicate 64 0 ++ [x.val]) = x.val :=
    decodeBE_pad 64 x.val
  show deserElem .secp256r1 (List.replicate (elemLen .secp256r1 - 1) 0 ++
    [x.val]) = some x
  unfold deserElem
  rw [show elemLen .secp256r1 - 1 = 64 from rfl,
    show elemLen PakePrimitive.secp256r1 = 65 from rfl]
  rw [if_pos hlen, if_pos hall, hd, if_pos hv]
  exact congrArg some (ZMod.natCast_rightInverse x)

/-- Deserializing a serialized scalar of the supported primitive recovers the
scalar. -/
lemma deserScalar_serScalar (x : PakeScalar) :
    deserScalar .secp256r1 (serScalar .secp256r1 x) = some x := by
  have hv : x.val < 11 := ZMod.val_lt x
  have hlen : (List.replicate 31 0 ++ [x.val]).length = 32 := by
    simp only [List.length_append, List.length_replicate,
      List.length_singleton]
  have h2 : (List.replicate 31 0).all (fun b => decide (b < 256)) = true := by
    decide
  have h3 : ([x.val]).all (fun b => decide (b < 256)) = true := by
    simp only [List.all_cons, List.all_nil, Bool.and_true]
    exact decide_eq_true (by omega)
  have hall : (List.replicate 31 0 ++ [x.val]).all
      (fun b => decide (b < 256)) = true := by
    rw [List.all_append, h2, h3]
    rfl
  have hd : decodeBE (List.replicate 31 0 ++ [x.val]) = x.val :=
    decodeBE_pad 31 x.val
  show deserScalar .secp256r1 (List.replicate (scalarLen .secp256r1 - 1) 0 ++
    [x.val]) = some x
  unfold deserScalar
  rw [show scalarLen .secp256r1 - 1 = 31 from rfl,
    show scalarLen PakePrimitive.secp256r1 = 32 from rfl]
  rw [if_pos hlen, if_pos hall, hd, if_pos hv]
  exact congrArg some (ZMod.natCast_rightInverse x)

/-- Taking back exactly the written payload from a buffer recovers the
payload. -/
lemma take_writeBuf (b p : List Nat) : (writeBuf b p).take p.length = p := by
  rw [writeBuf]
  exact List.take_left p (b.drop p.length)

/-- Taking the produced length back from a buffer written with a serialized
group element of the supported primitive recovers the payload. -/
lemma take_writeBuf_serElem (b : List Nat) (x : PakeScalar) :
    (writeBuf b (serElem .secp256r1 x)).take 65 = serElem .secp256r1 x := by
  have h : (serElem .secp256r1 x).length = 65 := by
    simp [serElem, elemLen]
  rw [show (65 : Nat) = (serElem .secp256r1 x).length from h.symm,
    take_writeBuf]

/-- Taking the produced length back from a buffer written with a serialized
scalar of the supported primitive recovers the payload. -/
lemma take_writeBuf_serScalar (b : List Nat) (x : PakeScalar) :
    (writeBuf b (serScalar .secp256r1 x)).take 32 = serScalar .secp256r1 x := by
  have h : (serScalar .secp256r1 x).length = 32 := by
    simp [serScalar, scalarLen]
  rw [show (32 : Nat) = (serScalar .secp256r1 x).length from h.symm,
    take_writeBuf]

/-- Taking the produced length back from a buffer written with derived key
bytes of the supported hash recovers the key bytes. -/
lemma take_writeBuf_kdf (b : List Nat) (k : PakeScalar) (t : List Nat) :
    (writeBuf b (pakeKdf .sha256 k t)).take 32 = pakeKdf .sha256 k t := by
  have h : (pakeKdf .sha256 k t).length = 32 := by
    simp [pakeKdf, hashLen]
  rw [show (32 : Nat) = (pakeKdf .sha256 k t).length from h.symm,
    take_writeBuf]

/-- The static compatibility table supports exactly one cipher suite. -/
lemma suiteSupported_eq_jpakeSuite (cs : PakeCipherSuite)
    (h : suiteSupported cs = true) : cs = jpakeSuite := by
  obtain ⟨a, p, hh⟩ := cs
  cases a <;> cases p <;> cases hh <;> first
    | rfl
    | exact absurd h (by decide)

set_option maxHeartbeats 4000000 in
/-- C1: for every supported cipher suite, two PAKE operations set up in
opposite roles and driven in lockstep, the output of each step fed to the
matching input of the other operation through every step of every round,
reach get_implicit_key successfully and both calls return bit-identical key
bytes of the same length. -/
theorem C1_lockstep_implicit_keys_agree (cs : PakeCipherSuite)
    (hcs : suiteSupported cs = true)
    (s a1 a2 n1 n2 n3 b1 b2 m1 m2 m3 : PakeScalar) :
    ∃ k, runLockstep cs s a1 a2 n1 n2 n3 b1 b2 m1 m2 m3 = some (k, k) := by
  obtain rfl : cs = jpakeSuite := suiteSupported_eq_jpakeSuite cs hcs
  simp [runLockstep, exchUnit, exchange, mbedtls_psa_pake_setup,
    mbedtls_psa_pake_output, mbedtls_psa_pake_input,
    mbedtls_psa_pake_get_implicit_key, roleSeq, unitSteps, jpakeSuite,
    required_output_size, elemLen, scalarLen, hashLen, suiteSupported,
    pakeTable, deserElem_serElem, deserScalar_serScalar,
    take_writeBuf_serElem, take_writeBuf_serScalar, take_writeBuf_kdf,
    Option.bind]
  split_ifs with hz1
  · simp [exchUnit, exchange, mbedtls_psa_pake_output, mbedtls_psa_pake_input,
      mbedtls_psa_pake_get_implicit_key, required_output_size, elemLen,
      scalarLen, hashLen, deserElem_serElem, deserScalar_serScalar,
      take_writeBuf_serElem, take_writeBuf_serScalar, take_writeBuf_kdf,
      Option.bind]
    split_ifs with hz2
    · simp [exchUnit, exchange, mbedtls_psa_pake_output,
        mbedtls_psa_pake_input, mbedtls_psa_pake_get_implicit_key,
        required_output_size, elemLen, scalarLen, hashLen, deserElem_serElem,
        deserScalar_serScalar, take_writeBuf_serElem, take_writeBuf_serScalar,
        take_writeBuf_kdf, Option.bind]
      split_ifs with hz3
      · simp [exchUnit, exchange, mbedtls_psa_pake_output,
          mbedtls_psa_pake_input, mbedtls_psa_pake_get_implicit_key,
          required_output_size, elemLen, scalarLen, hashLen,
          deserElem_serElem, deserScalar_serScalar, take_writeBuf_serElem,
          take_writeBuf_serScalar, take_writeBuf_kdf, Option.bind]
        split_ifs with hz4
        · simp [exchUnit, exchange, mbedtls_psa_pake_output,
            mbedtls_psa_pake_input, mbedtls_psa_pake_get_implicit_key,
            required_output_size, elemLen, scalarLen, hashLen,
            deserElem_serElem, deserScalar_serScalar, take_writeBuf_serElem,
            take_writeBuf_serScalar, take_writeBuf_kdf, Option.bind]
          split_ifs with hz5
          · simp [exchUnit, exchange, mbedtls_psa_pake_output,
              mbedtls_psa_pake_input, mbedtls_psa_pake_get_implicit_key,
              required_output_size, elemLen, scalarLen, hashLen,
              deserElem_serElem, deserScalar_serScalar, take_writeBuf_serElem,
              take_writeBuf_serScalar, take_writeBuf_kdf, Option.bind]
            split_ifs with hz6
            · simp [mbedtls_psa_pake_get_implicit_key, hashLen,
                take_writeBuf_kdf, Option.bind]
              have hk : b2 * ((a1 + b1 + b2) * (a2 * s) - b2 * s * a2)
                  = a2 * ((b1 + a1 + a2) * (b2 * s) - a2 * s * b2) := by ring
              rw [hk]
            · exact absurd (by ring) hz6
          · exact absurd (by ring) hz5
        · exact absurd (by ring) hz4
      · exact absurd (by ring) hz3
    · exact absurd (by ring) hz2
  · exact absurd (by ring) hz1

/-- Witness for C1: the lockstep run at the supported suite and concrete
password and randomness yields matching keys. -/
theorem C1_lockstep_implicit_keys_agree_witness :
    suiteSupported jpakeSuite = true ∧
      ∃ k, runLockstep jpakeSuite 5 3 4 6 7 8 2 9 1 10 3 = some (k, k) :=
  ⟨by decide,
   C1_lockstep_implicit_keys_agree jpakeSuite (by decide)
     5 3 4 6 7 8 2 9 1 10 3⟩

/-- C5: abort is total and idempotent over states: from any state any number
of consecutive abort calls succeed, leave the operation in the terminal
ABORTED state, and every subsequent non-abort call fails with a
terminal-state error. -/
theorem C5_abort_idempotent_total (op : PakeOperation) :
    (mbedtls_psa_pake_abort op).1 = .SUCCESS ∧
    (mbedtls_psa_pake_abort op).2.state = .aborted ∧
    (∀ n, (fun o => (mbedtls_psa_pake_abort o).2)^[n + 1] op =
      abortedOperation) ∧
    (∀ step buffer,
      mbedtls_psa_pake_output (mbedtls_psa_pake_abort op).2 step buffer =
        (.BAD_STATE, (mbedtls_psa_pake_abort op).2, buffer, 0)) ∧
    (∀ step bytes,
      mbedtls_psa_pake_input (mbedtls_psa_pake_abort op).2 step bytes =
        (.BAD_STATE, (mbedtls_psa_pake_abort op).2)) ∧
    (∀ buffer,
      mbedtls_psa_pake_get_implicit_key (mbedtls_psa_pake_abort op).2
          buffer =
        (.BAD_STATE, (mbedtls_psa_pake_abort op).2, buffer, 0)) ∧
    (∀ inputs,
      (mbedtls_psa_pake_setup (mbedtls_psa_pake_abort op).2 inputs).1 =
        .BAD_STATE) := by
  refine ⟨rfl, rfl, ?_, fun step buffer => rfl, fun step bytes => rfl,
    fun buffer => rfl, fun inputs => rfl⟩
  intro n
  induction n with
  | zero => rfl
  | succ k ih =>
      rw [Function.iterate_succ_apply', ih]
      rfl

/-- C6: a step that is not the expected next step of the Sequencer for the
operation makes output and input fail with a sequencing error, leaving the
operation (its state, transcript, randomness and cursor) and the buffer
unchanged, without executing the Round Engine. -/
theorem C6_sequencer_mismatch_rejected (op : PakeOperation) (step : PakeStep)
    (buffer bytes : List Nat) :
    (expectedNext op ≠ some (.out, step) →
      mbedtls_psa_pake_output op step buffer =
        (.BAD_STATE, op, buffer, 0)) ∧
    (expectedNext op ≠ some (.inp, step) →
      mbedtls_psa_pake_input op step bytes = (.BAD_STATE, op)) := by
  constructor
  · intro h
    unfold mbedtls_psa_pake_output
    split
    next e rest heq =>
      have hne : ¬(e = (PakeDir.out, step)) := by
        intro hc
        exact h (by simp [expectedNext, heq, hc])
      rw [if_neg hne]
    next => rfl
  · intro h
    unfold mbedtls_psa_pake_input
    split
    next e rest heq =>
      have hne : ¬(e = (PakeDir.inp, step)) := by
        intro hc
        exact h (by simp [expectedNext, heq, hc])
      rw [if_neg hne]
    next => rfl

/-- Witness for C6 at a terminal operation and the default step: both
mismatching calls return the sequencing failure unchanged. -/
theorem C6_sequencer_mismatch_rejected_witness :
    mbedtls_psa_pake_output abortedOperation {} (List.replicate 65 0) =
      (.BAD_STATE, abortedOperation, List.replicate 65 0, 0) ∧
    mbedtls_psa_pake_input abortedOperation {} [] =
      (.BAD_STATE, abortedOperation) :=
  ⟨(C6_sequencer_mismatch_rejected abortedOperation {}
      (List.replicate 65 0) []).1 (by decide),
   (C6_sequencer_mismatch_rejected abortedOperation {}
      (List.replicate 65 0) []).2 (by decide)⟩

/-- C3: an output call on the expected step whose buffer is smaller than the
required output size fails with a buffer-too-small error before writing
anything: the buffer contents and the operation are unchanged. -/
theorem C3_output_buffer_too_small (op : PakeOperation) (step : PakeStep)
    (rest : List (PakeDir × PakeStep)) (buffer : List Nat)
    (hst : op.state = .active ((PakeDir.out, step) :: rest))
    (hsz : buffer.length <
      required_output_size op.suite.alg op.suite.primitive step) :
    mbedtls_psa_pake_output op step buffer =
      (.BUFFER_TOO_SMALL, op, buffer, 0) := by
  simp only [mbedtls_psa_pake_output, hst]
  rw [if_pos trivial, if_pos hsz]

/-- Witness for C3: a buffer one byte shorter than the required 65-byte key
share is rejected with no write. -/
theorem C3_output_buffer_too_small_witness :
    mbedtls_psa_pake_output
        ({ state := .active [(PakeDir.out, {})], suite := jpakeSuite } :
          PakeOperation) {} (List.replicate 64 0) =
      (.BUFFER_TOO_SMALL,
        ({ state := .active [(PakeDir.out, {})], suite := jpakeSuite } :
          PakeOperation),
        List.replicate 64 0, 0) :=
  C3_output_buffer_too_small
    ({ state := .active [(PakeDir.out, {})], suite := jpakeSuite } :
      PakeOperation) {} [] (List.replicate 64 0) rfl (by decide)

/-- C8: with an initialized but not set up operation, setup returns
NOT_SUPPORTED exactly when the cipher suite triple fails the static
compatibility lookup, and the failed validation has no side effect on the
operation. -/
theorem C8_setup_not_supported_iff_table_miss (op : PakeOperation)
    (inputs : PakeInputs) (hst : op.state = .inactive) :
    ((mbedtls_psa_pake_setup op inputs).1 = .NOT_SUPPORTED ↔
      suiteSupported inputs.suite = false) ∧
    (suiteSupported inputs.suite = false →
      (mbedtls_psa_pake_setup op inputs).2 = op) := by
  simp only [mbedtls_psa_pake_setup, hst]
  split_ifs with h
  · simp [h]
  · simp [h]

/-- Witness for C8: an unsupported algorithm is rejected with no side
effect, and the equivalence holds at that input. -/
theorem C8_setup_not_supported_iff_table_miss_witness :
    ((mbedtls_psa_pake_setup {} { suite := { alg := .spake2p } }).1 =
        .NOT_SUPPORTED ↔
      suiteSupported ({ alg := .spake2p } : PakeCipherSuite) = false) ∧
    (suiteSupported ({ alg := .spake2p } : PakeCipherSuite) = false →
      (mbedtls_psa_pake_setup {} { suite := { alg := .spake2p } }).2 = {}) :=
  C8_setup_not_supported_iff_table_miss {} { suite := { alg := .spake2p } }
    rfl

/-- C9 counterexample: the spec result set for get_implicit_key includes
BUFFER_TOO_SMALL and omits DATA_CORRUPT, while the return values documented
in the header for mbedtls_psa_pake_get_implicit_key omit BUFFER_TOO_SMALL
and include DATA_CORRUPT, so the claimed set is not exactly the documented
one. -/
theorem C9_result_set_counterexample :
    PakeStatus.BUFFER_TOO_SMALL ∈ specGetImplicitKeyStatuses ∧
    PakeStatus.BUFFER_TOO_SMALL ∉ getImplicitKeyDocumentedStatuses ∧
    PakeStatus.DATA_CORRUPT ∈ getImplicitKeyDocumentedStatuses ∧
    PakeStatus.DATA_CORRUPT ∉ specGetImplicitKeyStatuses := by
  decide

/-- C9 amended: for an operation that has completed all rounds, a
get_implicit_key call with a buffer smaller than the derived key length
fails with BUFFER_TOO_SMALL, leaving the buffer and the operation unchanged
rather than truncating or succeeding. -/
theorem C9_get_implicit_key_small_buffer (op : PakeOperation)
    (buffer : List Nat) (hst : op.state = .active [])
    (hsz : buffer.length < hashLen op.suite.hash) :
    mbedtls_psa_pake_get_implicit_key op buffer =
      (.BUFFER_TOO_SMALL, op, buffer, 0) := by
  simp only [mbedtls_psa_pake_get_implicit_key, hst]
  rw [if_pos hsz]

/-- Witness for C9: a 31-byte buffer for the 32-byte derived key is rejected
with no write. -/
theorem C9_get_implicit_key_small_buffer_witness :
    mbedtls_psa_pake_get_implicit_key
        ({ state := .active [], suite := jpakeSuite } : PakeOperation)
        (List.replicate 31 0) =
      (.BUFFER_TOO_SMALL,
        ({ state := .active [], suite := jpakeSuite } : PakeOperation),
        List.replicate 31 0, 0) :=
  C9_get_implicit_key_small_buffer
    ({ state := .active [], suite := jpakeSuite } : PakeOperation)
    (List.replicate 31 0) rfl (by decide)

/-- C10: under the core precondition that input_length is bounded by the PSA
input-size macro for the supported primitive, and with the accumulated
buffer length within the internal capacity, the size_t addition of the
internal capacity comparison cannot wrap, and a passing check really means
the bytes fit the internal buffer. -/
theorem C10_input_length_check_no_overflow (buffer_length input_length : Nat)
    (step : PakeStep)
    (hbl : buffer_length ≤ MBEDTLS_PSA_JPAKE_BUFFER_SIZE)
    (hil : input_length ≤ PSA_PAKE_INPUT_SIZE .jpake .secp256r1 step) :
    (buffer_length + input_length) % SIZE_T_MOD =
      buffer_length + input_length ∧
    (jpakeBufferCheck buffer_length input_length = true →
      buffer_length + input_length ≤ MBEDTLS_PSA_JPAKE_BUFFER_SIZE) := by
  have hstep : PSA_PAKE_INPUT_SIZE .jpake .secp256r1 step ≤ 65 := by
    unfold PSA_PAKE_INPUT_SIZE required_output_size
    cases step.kind <;> simp [elemLen, scalarLen]
  have hcap : MBEDTLS_PSA_JPAKE_BUFFER_SIZE = 336 := rfl
  have hmod : SIZE_T_MOD = 18446744073709551616 := by
    unfold SIZE_T_MOD
    norm_num
  have hlt : buffer_length + input_length < SIZE_T_MOD := by
    rw [hmod]
    omega
  refine ⟨Nat.mod_eq_of_lt hlt, ?_⟩
  intro hc
  unfold jpakeBufferCheck at hc
  rw [Nat.mod_eq_of_lt hlt] at hc
  exact of_decide_eq_true hc

/-- Witness for C10 at a concrete accumulated length, input length and
step. -/
theorem C10_input_length_check_no_overflow_witness :
    (100 + 65) % SIZE_T_MOD = 100 + 65 ∧
    (jpakeBufferCheck 100 65 = true →
      100 + 65 ≤ MBEDTLS_PSA_JPAKE_BUFFER_SIZE) :=
  C10_input_length_check_no_overflow 100 65 {} (by decide) (by decide)

/-- C2: an input call on the expected ZK_PROOF step whose decoded proof
fails verification against the previously accepted commitment returns an
invalid-signature failure and immediately moves the operation to the
terminal ABORTED state, after which every call other than abort fails with
a terminal-state error. -/
theorem C2_failing_zk_proof_aborts (op : PakeOperation) (step : PakeStep)
    (rest : List (PakeDir × PakeStep)) (bytes : List Nat) (r : PakeScalar)
    (hst : op.state = .active ((PakeDir.inp, step) :: rest))
    (hk : step.kind = .ZK_PROOF)
    (hr : deserScalar op.suite.primitive bytes = some r)
    (hv : ¬(r * op.peer.Bp + zkChallenge op.peer.Xp op.peer.Vp * op.peer.Xp =
      op.peer.Vp)) :
    mbedtls_psa_pake_input op step bytes =
      (.INVALID_SIGNATURE, abortedOperation) ∧
    abortedOperation.state = .aborted ∧
    (∀ step2 buffer,
      mbedtls_psa_pake_output abortedOperation step2 buffer =
        (.BAD_STATE, abortedOperation, buffer, 0)) ∧
    (∀ step2 bs,
      mbedtls_psa_pake_input abortedOperation step2 bs =
        (.BAD_STATE, abortedOperation)) ∧
    (∀ buffer,
      mbedtls_psa_pake_get_implicit_key abortedOperation buffer =
        (.BAD_STATE, abortedOperation, buffer, 0)) ∧
    (∀ inputs,
      (mbedtls_psa_pake_setup abortedOperation inputs).1 = .BAD_STATE) := by
  refine ⟨?_, rfl, fun step2 buffer => rfl, fun step2 bs => rfl,
    fun buffer => rfl, fun inputs => rfl⟩
  simp only [mbedtls_psa_pake_input, hst, hk]
  rw [if_pos trivial]
  simp only [hr]
  rw [if_neg hv]

/-- Witness for C2: a concrete operation expecting a round-one proof, fed a
zero proof that fails verification, aborts with an invalid signature. -/
theorem C2_failing_zk_proof_aborts_witness :
    mbedtls_psa_pake_input
        ({ state := .active
             [(PakeDir.inp, { kind := .ZK_PROOF, round := 1, sub := 1 })],
           suite := jpakeSuite,
           peer := { Xp := 1, Vp := 0, Bp := 1 } } : PakeOperation)
        { kind := .ZK_PROOF, round := 1, sub := 1 }
        (serScalar .secp256r1 0) =
      (.INVALID_SIGNATURE, abortedOperation) :=
  (C2_failing_zk_proof_aborts
    ({ state := .active
         [(PakeDir.inp, { kind := .ZK_PROOF, round := 1, sub := 1 })],
       suite := jpakeSuite,
       peer := { Xp := 1, Vp := 0, Bp := 1 } } : PakeOperation)
    { kind := .ZK_PROOF, round := 1, sub := 1 } [] (serScalar .secp256r1 0)
    0 rfl rfl (by decide) (by decide)).1

/-- C4: get_implicit_key succeeds at most once: before every round has been
validated it fails with a sequencing error deriving nothing, and after a
successful call the operation is FINISHED so a second call fails with a
sequencing error. -/
theorem C4_get_implicit_key_at_most_once (op : PakeOperation)
    (buffer : List Nat) :
    (∀ e rest, op.state = .active (e :: rest) →
      mbedtls_psa_pake_get_implicit_key op buffer =
        (.BAD_STATE, op, buffer, 0)) ∧
    ((mbedtls_psa_pake_get_implicit_key op buffer).1 = .SUCCESS →
      (mbedtls_psa_pake_get_implicit_key op buffer).2.1.state = .finished ∧
      ∀ buffer2,
        mbedtls_psa_pake_get_implicit_key
            (mbedtls_psa_pake_get_implicit_key op buffer).2.1 buffer2 =
          (.BAD_STATE, (mbedtls_psa_pake_get_implicit_key op buffer).2.1,
            buffer2, 0)) := by
  constructor
  · intro e rest h
    simp only [mbedtls_psa_pake_get_implicit_key, h]
  · intro hs
    cases hst : op.state with
    | inactive => simp [mbedtls_psa_pake_get_implicit_key, hst] at hs
    | finished => simp [mbedtls_psa_pake_get_implicit_key, hst] at hs
    | aborted => simp [mbedtls_psa_pake_get_implicit_key, hst] at hs
    | active cursor =>
        cases cursor with
        | cons e rest =>
            simp [mbedtls_psa_pake_get_implicit_key, hst] at hs
        | nil =>
            simp only [mbedtls_psa_pake_get_implicit_key, hst] at hs ⊢
            split_ifs at hs ⊢ with hsz
            exact ⟨rfl, fun buffer2 => rfl⟩

/-- Witness for C4: a not yet completed operation is rejected, and a
completed concrete operation succeeds once, is FINISHED, and is rejected on
the second call. -/
theorem C4_get_implicit_key_at_most_once_witness :
    mbedtls_psa_pake_get_implicit_key
        ({ state := .active [(PakeDir.out, {})], suite := jpakeSuite } :
          PakeOperation) (List.replicate 32 0) =
      (.BAD_STATE,
        ({ state := .active [(PakeDir.out, {})], suite := jpakeSuite } :
          PakeOperation),
        List.replicate 32 0, 0) ∧
    (mbedtls_psa_pake_get_implicit_key
        ({ state := .active [], suite := jpakeSuite } : PakeOperation)
        (List.replicate 32 0)).2.1.state = .finished ∧
    mbedtls_psa_pake_get_implicit_key
        (mbedtls_psa_pake_get_implicit_key
          ({ state := .active [], suite := jpakeSuite } : PakeOperation)
          (List.replicate 32 0)).2.1 [] =
      (.BAD_STATE,
        (mbedtls_psa_pake_get_implicit_key
          ({ state := .active [], suite := jpakeSuite } : PakeOperation)
          (List.replicate 32 0)).2.1,
        [], 0) := by
  refine ⟨(C4_get_implicit_key_at_most_once _ (List.replicate 32 0)).1
    (PakeDir.out, {}) [] rfl, ?_, ?_⟩
  · exact ((C4_get_implicit_key_at_most_once
      ({ state := .active [], suite := jpakeSuite } : PakeOperation)
      (List.replicate 32 0)).2 (by decide)).1
  · exact ((C4_get_implicit_key_at_most_once
      ({ state := .active [], suite := jpakeSuite } : PakeOperation)
      (List.replicate 32 0)).2 (by decide)).2 []

/-- C7 counterexample: a successful setup call returns with the bound
password still recorded in the operation storage, so the success exit path
of setup does not erase the secret material the call touched. -/
theorem C7_setup_success_retains_password_counterexample :
    (mbedtls_psa_pake_setup {} { password := 5, suite := jpakeSuite }).1 =
      .SUCCESS ∧
    (mbedtls_psa_pake_setup {}
        { password := 5, suite := jpakeSuite }).2.secrets.pw = 5 ∧
    ¬ secretsErased
      (mbedtls_psa_pake_setup {} { password := 5, suite := jpakeSuite }).2 := by
  refine ⟨by decide, by decide, ?_⟩
  intro h
  have := congrArg PakeSecrets.pw h.1
  exact absurd this (by decide)

/-- C7 amended: abort erases the password and all ephemeral secrets from any
state; the invalid-signature failure path of input erases them; setup
followed immediately by abort leaves no recoverable secret bytes; and the
successful finalization erases all ephemeral secret state after copy-out. -/
theorem C7_secret_erasure_on_abort_and_failure (op : PakeOperation)
    (step : PakeStep) (bytes : List Nat) (inputs : PakeInputs)
    (buffer : List Nat) :
    secretsErased (mbedtls_psa_pake_abort op).2 ∧
    ((mbedtls_psa_pake_input op step bytes).1 = .INVALID_SIGNATURE →
      secretsErased (mbedtls_psa_pake_input op step bytes).2) ∧
    secretsErased
      (mbedtls_psa_pake_abort (mbedtls_psa_pake_setup {} inputs).2).2 ∧
    ((mbedtls_psa_pake_get_implicit_key op buffer).1 = .SUCCESS →
      secretsErased (mbedtls_psa_pake_get_implicit_key op buffer).2.1) := by
  refine ⟨⟨rfl, rfl⟩, ?_, ⟨rfl, rfl⟩, ?_⟩
  · intro hi
    cases hst : op.state with
    | inactive => simp [mbedtls_psa_pake_input, hst] at hi
    | finished => simp [mbedtls_psa_pake_input, hst] at hi
    | aborted => simp [mbedtls_psa_pake_input, hst] at hi
    | active cursor =>
        cases cursor with
        | nil => simp [mbedtls_psa_pake_input, hst] at hi
        | cons e rest =>
            simp only [mbedtls_psa_pake_input, hst] at hi ⊢
            by_cases he : e = (PakeDir.inp, step)
            · rw [if_pos he] at hi ⊢
              cases hk : step.kind <;> simp only [hk] at hi ⊢
              · rcases hde : deserElem op.suite.primitive bytes with _ | elem <;>
                  simp [hde] at hi
              · rcases hde : deserElem op.suite.primitive bytes with _ | elem <;>
                  simp [hde] at hi
              · rcases hde : deserScalar op.suite.primitive bytes with _ | r
                · simp [hde] at hi
                · simp only [hde] at hi ⊢
                  by_cases hver : r * op.peer.Bp +
                      zkChallenge op.peer.Xp op.peer.Vp * op.peer.Xp =
                      op.peer.Vp
                  · rw [if_pos hver] at hi
                    simp at hi
                  · rw [if_neg hver] at hi ⊢
                    exact ⟨rfl, rfl⟩
              · simp at hi
            · rw [if_neg he] at hi
              simp at hi
  · intro hs
    cases hst : op.state with
    | inactive => simp [mbedtls_psa_pake_get_implicit_key, hst] at hs
    | finished => simp [mbedtls_psa_pake_get_implicit_key, hst] at hs
    | aborted => simp [mbedtls_psa_pake_get_implicit_key, hst] at hs
    | active cursor =>
        cases cursor with
        | cons e rest =>
            simp [mbedtls_psa_pake_get_implicit_key, hst] at hs
        | nil =>
            simp only [mbedtls_psa_pake_get_implicit_key, hst] at hs ⊢
            split_ifs at hs ⊢ with hsz
            exact ⟨rfl, rfl⟩

/-- Witness for C7: the erasure facts evaluated at a concrete aborting
operation, a concrete failing proof input, default setup inputs and a
concrete completed finalization. -/
theorem C7_secret_erasure_on_abort_and_failure_witness :
    secretsErased (mbedtls_psa_pake_abort {}).2 ∧
    secretsErased
      (mbedtls_psa_pake_input
        ({ state := .active
             [(PakeDir.inp, { kind := .ZK_PROOF, round := 1, sub := 1 })],
           suite := jpakeSuite, secrets := { pw := 5 },
           peer := { Xp := 1, Vp := 0, Bp := 1 } } : PakeOperation)
        { kind := .ZK_PROOF, round := 1, sub := 1 }
        (serScalar .secp256r1 0)).2 ∧
    secretsErased
      (mbedtls_psa_pake_abort (mbedtls_psa_pake_setup {} {}).2).2 ∧
    secretsErased
      (mbedtls_psa_pake_get_implicit_key
        ({ state := .active [], suite := jpakeSuite,
           secrets := { pw := 5, x2 := 3 } } : PakeOperation)
        (List.replicate 32 0)).2.1 := by
  refine ⟨(C7_secret_erasure_on_abort_and_failure {} {} [] {} []).1,
    (C7_secret_erasure_on_abort_and_failure
      ({ state := .active
           [(PakeDir.inp, { kind := .ZK_PROOF, round := 1, sub := 1 })],
         suite := jpakeSuite, secrets := { pw := 5 },
         peer := { Xp := 1, Vp := 0, Bp := 1 } } : PakeOperation)
      { kind := .ZK_PROOF, round := 1, sub := 1 }
      (serScalar .secp256r1 0) {} []).2.1 ?_,
    (C7_secret_erasure_on_abort_and_failure {} {} [] {} []).2.2.1,
    (C7_secret_erasure_on_abort_and_failure
      ({ state := .active [], suite := jpakeSuite,
         secrets := { pw := 5, x2 := 3 } } : PakeOperation)
      {} [] {} (List.replicate 32 0)).2.2.2 ?_⟩
  · decide
  · decide
